import Mathlib

/-!
Shallow embedding of the configuration headers of the W8BH NTP-clock
repository (revised by WA2FZW and AI6P):

* `Software/NTP_Dual_Clock_Solar_V3.1/UserSettings.h`
* `User_Setup FIles/ESP32_NTP_Clock_Setup.h`
* `User_Setup FIles/ESP8266_Generic_Setup.h`
* `User_Setup FIles/ESP32_Cheap_Yellow_Display.h`

Every file is a set of preprocessor constant definitions.  The embedding
gives each constant a Lean definition with the source value, models C
arrays together with the byte size of one element (so the `sizeof`
arithmetic of the `ELEMENTS` macro can be expressed), and models the
three TFT_eSPI user-setup files as records.
-/

namespace NTPClock

/-- A C array value: its elements together with `sizeof` of one element
in bytes, so that the C expression `sizeof ( x ) / sizeof ( x[0] )` can
be stated.  In C the size of an array of `n` elements is `n` times the
size of one element. -/
structure CArr (α : Type) where
  data : List α
  elemSize : Nat
deriving DecidableEq

/-- C `sizeof` applied to a whole array: element count times element size. -/
def sizeofArr {α : Type} (a : CArr α) : Nat := a.data.length * a.elemSize

/-- UserSettings.h line 10: `#define ELEMENTS(x) ( sizeof ( x ) / sizeof ( x[0] ))`. -/
def ELEMENTS {α : Type} (a : CArr α) : Nat := sizeofArr a / a.elemSize

/-- UserSettings.h lines 19-21: `struct wifiData { String ssid; String pwd; }`. -/
structure wifiData where
  ssid : String
  pwd : String
deriving DecidableEq

/-- Byte size of one Arduino `String` object.  The exact value is
platform-defined (16 on the 32-bit ESP32 core); only its positivity
matters to the `ELEMENTS` arithmetic. -/
def sizeofString : Nat := 16

/-- Byte size of one `wifiData` record: two `String` members. -/
def sizeofWifiData : Nat := 2 * sizeofString

/-- UserSettings.h lines 35-42: the shipped WiFi credential array; only
the first (uncommented) pair is active. -/
def ssid_pwd : CArr wifiData :=
  ⟨[⟨"SSID_1", "PWD_1"⟩], sizeofWifiData⟩

/-- UserSettings.h lines 76-78: `char timeZones[][50]`, two POSIX rule
strings; each slot is 50 chars (string plus NUL terminator must fit). -/
def timeZones : CArr String :=
  ⟨["EST5EDT,M3.2.0/2:00:00,M11.1.0/2:00:00",
    "AEST-10AEDT,M10.1.0/2:00:00,M4.1.0/2:00:00"], 50⟩

/-- UserSettings.h line 80: `uint8_t tzCount = ELEMENTS ( timeZones );`
(an 8-bit unsigned value, hence the reduction mod 256). -/
def tzCount : Nat := ELEMENTS timeZones % 256

/-- UserSettings.h line 82: `#define TZ_INTERVAL 5`. -/
def TZ_INTERVAL : Nat := 5

/-- UserSettings.h line 92: `#define TITLE "NTP CLOCK"`. -/
def TITLE : String := "NTP CLOCK"

/-- UserSettings.h line 94: `#define BAUDRATE 115200`. -/
def BAUDRATE : Nat := 115200

/-- UserSettings.h line 96: `#define SCREEN_ORIENTATION 3`. -/
def SCREEN_ORIENTATION : Nat := 3

/-- UserSettings.h line 105. -/
def LOCAL_FORMAT_12HR : Bool := true

/-- UserSettings.h line 106. -/
def UTC_FORMAT_12HR : Bool := false

/-- UserSettings.h line 107. -/
def DISPLAY_AMPM : Bool := true

/-- UserSettings.h line 108. -/
def HOUR_LEADING_ZERO : Bool := false

/-- UserSettings.h line 109. -/
def DATE_LEADING_ZERO : Bool := true

/-- UserSettings.h line 110. -/
def DATE_ABOVE_MONTH : Bool := false

/-- UserSettings.h line 112: `#define PRINTED_TIME 1`. -/
def PRINTED_TIME : Nat := 1

/-- Colors of the TFT_eSPI library referenced by UserSettings.h. -/
inductive TFTColor
  | cyan
  | yellow
  | white
  | blue
  | green
  | red
deriving DecidableEq

/-- UserSettings.h line 120: `#define TIMECOLOR TFT_CYAN`. -/
def TIMECOLOR : TFTColor := .cyan

/-- UserSettings.h line 121: `#define DATECOLOR TFT_YELLOW`. -/
def DATECOLOR : TFTColor := .yellow

/-- UserSettings.h line 122: `#define LABEL_FGCOLOR TFT_WHITE`. -/
def LABEL_FGCOLOR : TFTColor := .white

/-- UserSettings.h line 123: `#define LABEL_BGCOLOR TFT_BLUE`. -/
def LABEL_BGCOLOR : TFTColor := .blue

/-- UserSettings.h line 135: `#define COLOR_NORMAL TFT_GREEN`. -/
def COLOR_NORMAL : TFTColor := .green

/-- UserSettings.h line 136: `#define COLOR_MEDIUM TFT_YELLOW`. -/
def COLOR_MEDIUM : TFTColor := .yellow

/-- UserSettings.h line 137: `#define COLOR_HIGH TFT_RED`. -/
def COLOR_HIGH : TFTColor := .red

/-- UserSettings.h line 146: `#define MEDIUM_K 4`. -/
def MEDIUM_K : Nat := 4

/-- UserSettings.h line 147: `#define HIGH_K 5`. -/
def HIGH_K : Nat := 5

/-- UserSettings.h line 149: `#define MEDIUM_A 20`. -/
def MEDIUM_A : Nat := 20

/-- UserSettings.h line 150: `#define HIGH_A 30`. -/
def HIGH_A : Nat := 30

/-- UserSettings.h line 152: `#define MEDIUM_SFI 175`. -/
def MEDIUM_SFI : Nat := 175

/-- UserSettings.h line 153: `#define HIGH_SFI 200`. -/
def HIGH_SFI : Nat := 200

/-- UserSettings.h line 175: `#define SHOW_SFI 1`. -/
def SHOW_SFI : Nat := 1

/-- UserSettings.h line 176: `#define SHOW_GMF 2`. -/
def SHOW_GMF : Nat := 2

/-- UserSettings.h line 177: `#define SHOW_S2N 3`. -/
def SHOW_S2N : Nat := 3

/-- UserSettings.h line 178: `#define SHOW_AUR 4`. -/
def SHOW_AUR : Nat := 4

/-- UserSettings.h line 179: `#define SHOW_SSN 5`. -/
def SHOW_SSN : Nat := 5

/-- UserSettings.h line 181: `#define DATA_ITEMS 5`. -/
def DATA_ITEMS : Nat := 5

/-- UserSettings.h line 191: `#define CYCLE_TIME 2`. -/
def CYCLE_TIME : Nat := 2

/-- The five display-priority constants of UserSettings.h lines 175-179,
collected in their declaration order. -/
def showValues : List Nat := [SHOW_SFI, SHOW_GMF, SHOW_S2N, SHOW_AUR, SHOW_SSN]

/-- A pin value in a TFT_eSPI setup file: either a literal GPIO number
(possibly -1, meaning tied to the board reset) or one of the ESP8266
symbolic `PIN_Dn` designations. -/
inductive PinVal
  | gpio : Int → PinVal
  | pinD : Nat → PinVal
deriving DecidableEq

/-- The display driver chip selected by a setup file. -/
inductive DriverChip
  | ili9341
  | ili9341_2
deriving DecidableEq

/-- A digital level, as in `#define TFT_BACKLIGHT_ON HIGH`. -/
inductive PinLevel
  | high
  | low
deriving DecidableEq

/-- The configuration surface of one TFT_eSPI user-setup file: driver
selection, pin assignments (absent pins are commented out in the
source), font-inclusion flags, SPI frequencies, and the Cheap Yellow
Display extras (backlight pin and level, HSPI port selection). -/
structure TFTSetup where
  driver : DriverChip
  tftMiso : Option PinVal
  tftMosi : PinVal
  tftSclk : PinVal
  tftCs : PinVal
  tftDc : PinVal
  tftRst : PinVal
  loadGlcd : Bool
  loadFont2 : Bool
  loadFont4 : Bool
  loadFont6 : Bool
  loadFont7 : Bool
  loadFont8 : Bool
  loadGfxff : Bool
  smoothFont : Bool
  spiFrequency : Nat
  spiReadFrequency : Nat
  spiTouchFrequency : Nat
  tftBl : Option Nat
  tftBacklightOn : Option PinLevel
  useHspiPort : Bool
deriving DecidableEq

/-- Embedding of `User_Setup FIles/ESP32_NTP_Clock_Setup.h`. -/
def ESP32_NTP_Clock_Setup : TFTSetup :=
  ⟨.ili9341,
   none, .gpio 23, .gpio 18, .gpio 5, .gpio 2, .gpio 15,
   true, true, true, true, true, true, true, true,
   40000000, 20000000, 2500000,
   none, none, false⟩

/-- Embedding of `User_Setup FIles/ESP8266_Generic_Setup.h`. -/
def ESP8266_Generic_Setup : TFTSetup :=
  ⟨.ili9341,
   none, .pinD 7, .pinD 5, .pinD 8, .pinD 3, .gpio (-1),
   true, true, true, true, true, true, true, true,
   40000000, 20000000, 2500000,
   none, none, false⟩

/-- Embedding of `User_Setup FIles/ESP32_Cheap_Yellow_Display.h`. -/
def ESP32_Cheap_Yellow_Display : TFTSetup :=
  ⟨.ili9341,
   some (.gpio 12), .gpio 13, .gpio 14, .gpio 15, .gpio 2, .gpio (-1),
   true, true, true, true, true, true, true, true,
   40000000, 20000000, 2500000,
   some 21, some .high, true⟩

/-- The projection of a setup file onto everything that is neither a pin
assignment nor a Cheap Yellow Display extra: driver chip, the eight
font-inclusion flags, and the three SPI frequencies. -/
def corePart (s : TFTSetup) :
    DriverChip × Bool × Bool × Bool × Bool × Bool × Bool × Bool × Bool × Nat × Nat × Nat :=
  (s.driver, s.loadGlcd, s.loadFont2, s.loadFont4, s.loadFont6, s.loadFont7,
   s.loadFont8, s.loadGfxff, s.smoothFont,
   s.spiFrequency, s.spiReadFrequency, s.spiTouchFrequency)

/-- The user-editable fields of UserSettings.h, as a configuration the
user may write in any way (including an empty WiFi list or inconsistent
display-item priorities). -/
structure UserConfig where
  wifi : List wifiData
  tzs : List String
  tzInterval : Nat
  priorities : List Nat
  dataItems : Nat
  cycleTime : Nat
deriving DecidableEq

/-- The constants a compilation of UserSettings.h produces: the user
fields passed through unchanged plus the derived `tzCount`. -/
structure Settings where
  wifi : List wifiData
  tzs : CArr String
  tzCount : Nat
  tzInterval : Nat
  priorities : List Nat
  dataItems : Nat
  cycleTime : Nat
deriving DecidableEq

/-- The expansion UserSettings.h performs on any user configuration: it
defines every constant unconditionally (no validation, no error branch),
the only computation being `tzCount = ELEMENTS ( timeZones )` truncated
to `uint8_t`. -/
def expandUserSettings (c : UserConfig) : Settings :=
  ⟨c.wifi, ⟨c.tzs, 50⟩, ELEMENTS (⟨c.tzs, 50⟩ : CArr String) % 256,
   c.tzInterval, c.priorities, c.dataItems, c.cycleTime⟩

/-- A degenerate configuration the comments warn about: an empty WiFi
list and all display priorities zero while `DATA_ITEMS` stays 5. -/
def degenerateConfig : UserConfig :=
  ⟨[], [], TZ_INTERVAL, [0, 0, 0, 0, 0], 5, CYCLE_TIME⟩

/-- Names defined (by `#define`, `struct` or a variable declaration) in
UserSettings.h. -/
def definedUserSettings : List String :=
  ["_USER_SETTINGS_H_", "ELEMENTS", "wifiData", "ssid_pwd", "timeZones",
   "tzCount", "TZ_INTERVAL", "TITLE", "BAUDRATE", "SCREEN_ORIENTATION",
   "LOCAL_FORMAT_12HR", "UTC_FORMAT_12HR", "DISPLAY_AMPM",
   "HOUR_LEADING_ZERO", "DATE_LEADING_ZERO", "DATE_ABOVE_MONTH",
   "PRINTED_TIME", "TIMECOLOR", "DATECOLOR", "LABEL_FGCOLOR",
   "LABEL_BGCOLOR", "COLOR_NORMAL", "COLOR_MEDIUM", "COLOR_HIGH",
   "MEDIUM_K", "HIGH_K", "MEDIUM_A", "HIGH_A", "MEDIUM_SFI", "HIGH_SFI",
   "SHOW_SFI", "SHOW_GMF", "SHOW_S2N", "SHOW_AUR", "SHOW_SSN",
   "DATA_ITEMS", "CYCLE_TIME"]

/-- External names UserSettings.h uses without defining them (types and
TFT_eSPI color macros). -/
def referencedUserSettings : List String :=
  ["sizeof", "String", "char", "uint8_t", "TFT_CYAN", "TFT_YELLOW",
   "TFT_WHITE", "TFT_BLUE", "TFT_GREEN", "TFT_RED"]

/-- Names defined in ESP32_NTP_Clock_Setup.h. -/
def definedESP32Setup : List String :=
  ["ILI9341_DRIVER", "TFT_MOSI", "TFT_SCLK", "TFT_CS", "TFT_DC",
   "TFT_RST", "LOAD_GLCD", "LOAD_FONT2", "LOAD_FONT4", "LOAD_FONT6",
   "LOAD_FONT7", "LOAD_FONT8", "LOAD_GFXFF", "SMOOTH_FONT",
   "SPI_FREQUENCY", "SPI_READ_FREQUENCY", "SPI_TOUCH_FREQUENCY"]

/-- External names ESP32_NTP_Clock_Setup.h uses without defining them
(all its values are numeric literals). -/
def referencedESP32Setup : List String := []

/-- Names defined in ESP8266_Generic_Setup.h. -/
def definedESP8266Setup : List String :=
  ["ILI9341_DRIVER", "TFT_MOSI", "TFT_SCLK", "TFT_CS", "TFT_DC",
   "TFT_RST", "LOAD_GLCD", "LOAD_FONT2", "LOAD_FONT4", "LOAD_FONT6",
   "LOAD_FONT7", "LOAD_FONT8", "LOAD_GFXFF", "SMOOTH_FONT",
   "SPI_FREQUENCY", "SPI_READ_FREQUENCY", "SPI_TOUCH_FREQUENCY"]

/-- External names ESP8266_Generic_Setup.h uses without defining them
(the ESP8266 core's symbolic pin designations). -/
def referencedESP8266Setup : List String :=
  ["PIN_D7", "PIN_D5", "PIN_D8", "PIN_D3"]

/-- Names defined in ESP32_Cheap_Yellow_Display.h. -/
def definedCYDSetup : List String :=
  ["ILI9341_DRIVER", "TFT_BL", "TFT_BACKLIGHT_ON", "TFT_MISO",
   "TFT_MOSI", "TFT_SCLK", "TFT_CS", "TFT_DC", "TFT_RST", "LOAD_GLCD",
   "LOAD_FONT2", "LOAD_FONT4", "LOAD_FONT6", "LOAD_FONT7", "LOAD_FONT8",
   "LOAD_GFXFF", "SMOOTH_FONT", "SPI_FREQUENCY", "SPI_READ_FREQUENCY",
   "SPI_TOUCH_FREQUENCY", "USE_HSPI_PORT"]

/-- External names ESP32_Cheap_Yellow_Display.h uses without defining
them (the Arduino `HIGH` level constant). -/
def referencedCYDSetup : List String := ["HIGH"]

/-- True when no name of `refs` occurs among the names of `defs`. -/
def noNameFrom (refs defs : List String) : Bool :=
  refs.all (fun n => !(defs.contains n))

/-- The normal color band of a color-coded metric: at or below the
medium threshold. -/
def inNormalBand (med v : Nat) : Prop := v ≤ med

/-- The medium color band: above the medium threshold, at or below the
high threshold. -/
def inMediumBand (med hi v : Nat) : Prop := med < v ∧ v ≤ hi

/-- The high color band: above the high threshold. -/
def inHighBand (hi v : Nat) : Prop := hi < v

/-- The three color bands at thresholds `med < hi` cover the value `v`
and no two of them overlap at `v`. -/
def bandsPartition (med hi v : Nat) : Prop :=
  (inNormalBand med v ∨ inMediumBand med hi v ∨ inHighBand hi v) ∧
  ¬(inNormalBand med v ∧ inMediumBand med hi v) ∧
  ¬(inNormalBand med v ∧ inHighBand hi v) ∧
  ¬(inMediumBand med hi v ∧ inHighBand hi v)

/-- When the medium threshold does not exceed the high threshold, the
three bands partition the value range. -/
lemma bandsPartition_of_le (med hi : Nat) (h : med ≤ hi) (v : Nat) :
    bandsPartition med hi v := by
  unfold bandsPartition inNormalBand inMediumBand inHighBand
  omega

/-- C1: the five display-priority constants SHOW_SFI..SHOW_SSN take
exactly the values 1,2,3,4,5 — the nonzero priorities form the dense
run 1..DATA_ITEMS with no number skipped — and DATA_ITEMS equals 5,
which is both the highest assigned priority and the count of active
(nonzero) items. -/
theorem c1_display_priorities_dense :
    SHOW_SFI = 1 ∧ SHOW_GMF = 2 ∧ SHOW_S2N = 3 ∧ SHOW_AUR = 4 ∧ SHOW_SSN = 5 ∧
    DATA_ITEMS = 5 ∧
    showValues.filter (fun v => v != 0) = List.range' 1 DATA_ITEMS ∧
    showValues.foldr max 0 = DATA_ITEMS ∧
    (showValues.filter (fun v => v != 0)).length = DATA_ITEMS := by
  decide

/-- C2: the WiFi credential array `ssid_pwd` is non-empty with exactly
one pair ("SSID_1", "PWD_1"), so `ELEMENTS(ssid_pwd) >= 1`, and every
element has both its ssid and its pwd field populated. -/
theorem c2_wifi_list_nonempty_complete :
    1 ≤ ELEMENTS ssid_pwd ∧
    ssid_pwd.data = [⟨"SSID_1", "PWD_1"⟩] ∧
    ssid_pwd.data.all (fun e => !(e.ssid == "") && !(e.pwd == "")) = true := by
  decide

/-- C3: the timezone list is non-empty, `tzCount = ELEMENTS(timeZones)`
equals 2 (the US Eastern and Australian Eastern rule strings), and each
entry together with its NUL terminator fits in its 50-character slot. -/
theorem c3_timezones_count_and_fit :
    timeZones.data ≠ [] ∧
    tzCount = ELEMENTS timeZones ∧
    tzCount = 2 ∧
    timeZones.data = ["EST5EDT,M3.2.0/2:00:00,M11.1.0/2:00:00",
                      "AEST-10AEDT,M10.1.0/2:00:00,M4.1.0/2:00:00"] ∧
    timeZones.data.all (fun s => decide (s.length + 1 ≤ 50)) = true := by
  decide

/-- C4: the shown code defines its constants unconditionally for every
configuration the user may write — the expansion is a total function
with no error branch: it passes every field through (computing only the
derived `tzCount`), and in particular it still produces a value on the
degenerate configuration with an empty WiFi list and inconsistent
display-item priorities. -/
theorem c4_expansion_total_no_error :
    (∀ c : UserConfig,
      expandUserSettings c =
        ⟨c.wifi, ⟨c.tzs, 50⟩, ELEMENTS (⟨c.tzs, 50⟩ : CArr String) % 256,
         c.tzInterval, c.priorities, c.dataItems, c.cycleTime⟩) ∧
    expandUserSettings degenerateConfig =
      ⟨[], ⟨[], 50⟩, 0, TZ_INTERVAL, [0, 0, 0, 0, 0], 5, CYCLE_TIME⟩ :=
  ⟨fun _ => rfl, by decide⟩

/-- C5: TZ_INTERVAL equals 5, lies in the documented range 1..30, and
divides evenly into 60. -/
theorem c5_tz_interval_in_range :
    TZ_INTERVAL = 5 ∧ 1 ≤ TZ_INTERVAL ∧ TZ_INTERVAL ≤ 30 ∧
    60 % TZ_INTERVAL = 0 := by
  decide

/-- C6: all three TFT_eSPI setup files select the ILI9341 driver, load
the same eight font flags, and define SPI frequencies 40000000,
20000000 and 2500000; outside the pin assignments their configurations
agree, and only the Cheap Yellow Display adds the backlight and HSPI
extras. -/
theorem c6_setup_files_agree_on_core :
    corePart ESP32_NTP_Clock_Setup = corePart ESP8266_Generic_Setup ∧
    corePart ESP32_NTP_Clock_Setup = corePart ESP32_Cheap_Yellow_Display ∧
    corePart ESP32_NTP_Clock_Setup =
      (.ili9341, true, true, true, true, true, true, true, true,
       40000000, 20000000, 2500000) ∧
    ESP32_Cheap_Yellow_Display.tftBl = some 21 ∧
    ESP32_Cheap_Yellow_Display.tftBacklightOn = some .high ∧
    ESP32_Cheap_Yellow_Display.useHspiPort = true ∧
    ESP32_NTP_Clock_Setup.tftBl = none ∧
    ESP32_NTP_Clock_Setup.tftBacklightOn = none ∧
    ESP32_NTP_Clock_Setup.useHspiPort = false ∧
    ESP8266_Generic_Setup.tftBl = none ∧
    ESP8266_Generic_Setup.tftBacklightOn = none ∧
    ESP8266_Generic_Setup.useHspiPort = false :=
  ⟨rfl, rfl, rfl, rfl, rfl, rfl, rfl, rfl, rfl, rfl, rfl, rfl⟩

/-- C7: the header files do not reference each other — no name defined
in one of the four supplied headers occurs among the names another of
them references, so each file's embedded configuration depends on its
own definitions alone. -/
theorem c7_headers_independent :
    noNameFrom referencedUserSettings definedESP32Setup = true ∧
    noNameFrom referencedUserSettings definedESP8266Setup = true ∧
    noNameFrom referencedUserSettings definedCYDSetup = true ∧
    noNameFrom referencedESP32Setup definedUserSettings = true ∧
    noNameFrom referencedESP32Setup definedESP8266Setup = true ∧
    noNameFrom referencedESP32Setup definedCYDSetup = true ∧
    noNameFrom referencedESP8266Setup definedUserSettings = true ∧
    noNameFrom referencedESP8266Setup definedESP32Setup = true ∧
    noNameFrom referencedESP8266Setup definedCYDSetup = true ∧
    noNameFrom referencedCYDSetup definedUserSettings = true ∧
    noNameFrom referencedCYDSetup definedESP32Setup = true ∧
    noNameFrom referencedCYDSetup definedESP8266Setup = true := by
  decide

/-- C8: each color-coded metric has its medium threshold strictly below
its high threshold (4 < 5, 20 < 30, 175 < 200), so for every value the
three color bands cover it and no two of them overlap. -/
theorem c8_thresholds_partition_bands :
    MEDIUM_K = 4 ∧ HIGH_K = 5 ∧ MEDIUM_K < HIGH_K ∧
    MEDIUM_A = 20 ∧ HIGH_A = 30 ∧ MEDIUM_A < HIGH_A ∧
    MEDIUM_SFI = 175 ∧ HIGH_SFI = 200 ∧ MEDIUM_SFI < HIGH_SFI ∧
    (∀ v : Nat, bandsPartition MEDIUM_K HIGH_K v) ∧
    (∀ v : Nat, bandsPartition MEDIUM_A HIGH_A v) ∧
    (∀ v : Nat, bandsPartition MEDIUM_SFI HIGH_SFI v) :=
  ⟨rfl, rfl, by decide, rfl, rfl, by decide, rfl, rfl, by decide,
   bandsPartition_of_le MEDIUM_K HIGH_K (by decide),
   bandsPartition_of_le MEDIUM_A HIGH_A (by decide),
   bandsPartition_of_le MEDIUM_SFI HIGH_SFI (by decide)⟩

/-- C9: for every array of n elements, `ELEMENTS(x) = sizeof(x) /
sizeof(x[0])` evaluates to n whatever the (positive) element size; in
particular `ELEMENTS(timeZones) = 2` and `ELEMENTS(ssid_pwd) = 1` in
the shipped configuration. -/
theorem c9_elements_counts_length :
    (∀ (α : Type) (a : CArr α), 0 < a.elemSize → ELEMENTS a = a.data.length) ∧
    ELEMENTS timeZones = 2 ∧ ELEMENTS ssid_pwd = 1 := by
  refine ⟨fun α a h => ?_, by decide, by decide⟩
  unfold ELEMENTS sizeofArr
  exact Nat.mul_div_cancel _ h

/-- Witness for C9 at the concrete array `timeZones`, whose element
size 50 is positive. -/
theorem c9_elements_counts_length_witness :
    ELEMENTS timeZones = timeZones.data.length :=
  c9_elements_counts_length.1 String timeZones (by decide)

/-- C10: CYCLE_TIME equals 2, is nonzero, and divides evenly into 60,
so every displayed solar data item receives an equal share of each
minute. -/
theorem c10_cycle_time_divides_minute :
    CYCLE_TIME = 2 ∧ CYCLE_TIME ≠ 0 ∧ 60 % CYCLE_TIME = 0 := by
  decide

end NTPClock
